import Mathlib

/-!
Verification of the vehicle-queue application (`src/App.jsx` and the supabase
client module) against its specification.

The controller state (`form`, `fila`, `loading` — App.jsx lines 27-29) is a
structure; each handler (`fetchQueue`, `handleSubmit`, `handleCallNext`) is
embedded as a function from the state at entry plus the remote response to the
trace of effects it performs, in source order: state mutations (`setLoading`,
`setFila`, `setForm`), remote calls through the supabase client, and
`console.error` logs. Running a trace over a state with `run` yields the final
local state; `remoteCalls` projects the remote operations a trace issues.
The presentation-layer dispatch guards (the `required` attribute on the
tractor-plate input and the `disabled` attributes on the two buttons) are
embedded as a separate dispatch layer over the handlers.
-/

namespace FilaVeiculos

/-- One row of the `fila` table (the spec's VehicleEntry): the eight form
fields, the `status` string, the arrival timestamp `chegada_at` (modelled as a
Nat so that the ascending order of ISO-8601 strings becomes numeric order) and
the nullable `chamado_at`. -/
structure Vehicle where
  id : Nat
  placa_cavalo : String
  placa_carreta : String
  motorista : String
  origem : String
  destino : String
  tipo : String
  prioridade : String
  observacoes : String
  status : String
  chegada_at : Nat
  chamado_at : Option Nat
  deriving Repr, DecidableEq

/-- The form draft (the `initialForm` shape, App.jsx lines 15-24). -/
structure Form where
  placa_cavalo : String
  placa_carreta : String
  motorista : String
  origem : String
  destino : String
  tipo : String
  prioridade : String
  observacoes : String
  deriving Repr, DecidableEq

/-- The initial (all-empty) form state (App.jsx lines 15-24). -/
def initialForm : Form := ⟨"", "", "", "", "", "", "", ""⟩

/-- The controller's local state: `form`, `fila`, `loading`
(App.jsx lines 27-29). -/
structure AppState where
  form : Form
  fila : List Vehicle
  loading : Bool
  deriving Repr, DecidableEq

/-- A remote operation issued through the supabase client: the queue select
(lines 35-39), the queue insert (lines 60-68, with the status the code forces),
the queue-row update (lines 86-89) and the history insert (lines 91-100). -/
inductive RemoteCall where
  | selectFila
  | insertFila (row : Form) (status : String)
  | updateFila (id : Nat) (status : String) (chamado_at : Nat)
  | insertHistorico (veiculo_id : Nat) (acao : String) (at_ : Nat) (payload : Vehicle)
  deriving Repr, DecidableEq

/-- Whether a remote call is the queue-row update. -/
def RemoteCall.isUpdateFila : RemoteCall → Bool
  | .updateFila _ _ _ => true
  | _ => false

/-- Whether a remote call is the history insert. -/
def RemoteCall.isInsertHistorico : RemoteCall → Bool
  | .insertHistorico _ _ _ _ => true
  | _ => false

/-- One effect of a handler, in source order: a `setLoading`/`setFila`/`setForm`
state update, a remote call, or a `console.error` log (prefix and detail are
the two arguments the code passes). -/
inductive Ev where
  | setLoading (b : Bool)
  | remote (c : RemoteCall)
  | setFila (q : List Vehicle)
  | setForm (f : Form)
  | logError (msg : String) (detail : String)
  deriving Repr, DecidableEq

/-- Applying one effect to the local state: remote calls and logs do not touch
local state. -/
def applyEv (s : AppState) : Ev → AppState
  | .setLoading b => { s with loading := b }
  | .setFila q => { s with fila := q }
  | .setForm f => { s with form := f }
  | .remote _ => s
  | .logError _ _ => s

/-- The local state after a handler's trace of effects. -/
def run (s : AppState) (evs : List Ev) : AppState := evs.foldl applyEv s

/-- The remote operations a trace issues, in order. -/
def remoteCalls (evs : List Ev) : List RemoteCall :=
  evs.filterMap fun e =>
    match e with
    | Ev.remote c => some c
    | _ => none

/-- The string JavaScript prints for `error?.message`: the message when the
error object is present, the text "undefined" when it is null. -/
def jsErrMessage : Option String → String
  | some m => m
  | none => "undefined"

/-- The `fetchQueue` handler (App.jsx lines 33-46). `data` and `error` are the
remote response of the select; on success the queue is replaced by
`data || []`, on error the code logs and leaves the queue alone. -/
def fetchQueue (data : Option (List Vehicle)) (error : Option String) : List Ev :=
  [Ev.setLoading true, Ev.remote RemoteCall.selectFila] ++
  (match error with
   | none => [Ev.setFila (data.getD [])]
   | some m => [Ev.logError "Erro ao buscar fila:" m]) ++
  [Ev.setLoading false]

/-- Stand-in for the JavaScript `undefined` value that `data[0]` produces when
the returned row set is an empty array (an empty array is truthy, so the code
would append `undefined`); never reached in the verified scenarios, which all
return either a one-row set or a null set. -/
def undefinedVehicle : Vehicle := ⟨0, "", "", "", "", "", "", "", "", "", 0, none⟩

/-- The `handleSubmit` handler (App.jsx lines 56-77). The insert row is the
form spread plus `status: 'Na fila'`; the `!error && data` test succeeds
exactly when `error` is null and `data` is non-null, in which case `data[0]`
is appended to the queue (via the functional updater, whose `prev` is the
`fila` at entry) and the form is reset; otherwise `error?.message` is logged. -/
def handleSubmit (s : AppState) (data : Option (List Vehicle)) (error : Option String) :
    List Ev :=
  [Ev.setLoading true,
   Ev.remote (RemoteCall.insertFila s.form "Na fila")] ++
  (match error, data with
   | none, some d =>
     [Ev.setFila (s.fila ++ [d.headD undefinedVehicle]), Ev.setForm initialForm]
   | _, _ => [Ev.logError "Erro ao inserir veículo:" (jsErrMessage error)]) ++
  [Ev.setLoading false]

/-- The `handleCallNext` handler (App.jsx lines 80-110). The empty-queue guard
(line 81) returns before any effect; otherwise `next` is `fila[0]`, the row
update and the history insert are both issued with the same `now`, each error
is logged independently, and `setFila(prev => prev.slice(1))` drops the head
(the functional updater's `prev` is the `fila` at entry). -/
def handleCallNext (s : AppState) (now : Nat) (updateError historicoError : Option String) :
    List Ev :=
  match s.fila with
  | [] => []
  | next :: rest =>
    [Ev.setLoading true,
     Ev.remote (RemoteCall.updateFila next.id "Chamado" now),
     Ev.remote (RemoteCall.insertHistorico next.id "Chamado" now next)] ++
    (match updateError with
     | some m => [Ev.logError "Erro ao chamar veículo:" m]
     | none => []) ++
    (match historicoError with
     | some m => [Ev.logError "Erro ao registrar histórico:" m]
     | none => []) ++
    [Ev.setFila rest, Ev.setLoading false]

/-- The form-submission boundary (App.jsx lines 115-162): the submit button is
`disabled` while `loading` (line 159), so neither a click nor implicit
submission fires while busy, and the browser's constraint validation blocks
submission while the `required` tractor-plate input (lines 117-118) is empty.
Only past both does `handleSubmit` run. -/
def submitFormEvent (s : AppState) (data : Option (List Vehicle)) (error : Option String) :
    List Ev :=
  if s.loading then []
  else if s.form.placa_cavalo = "" then []
  else handleSubmit s data error

/-- The call-next button (App.jsx line 163):
`disabled` is `loading || fila.length === 0`. -/
def clickCallNext (s : AppState) (now : Nat) (updateError historicoError : Option String) :
    List Ev :=
  if s.loading || s.fila.length == 0 then []
  else handleCallNext s now updateError historicoError

/-- Ascending order on arrival timestamps, the order the queue query requests. -/
def arrivalLE (a b : Vehicle) : Prop := a.chegada_at ≤ b.chegada_at

instance : DecidableRel arrivalLE := fun a b => Nat.decLe a.chegada_at b.chegada_at

instance : IsTotal Vehicle arrivalLE := ⟨fun a b => Nat.le_total a.chegada_at b.chegada_at⟩

instance : IsTrans Vehicle arrivalLE := ⟨fun _ _ _ => Nat.le_trans⟩

/-- Model of the remote store evaluating the query issued at App.jsx lines
35-39: the rows of the `fila` table whose status equals "Na fila", ordered
ascending by `chegada_at`. -/
def selectNaFila (table : List Vehicle) : List Vehicle :=
  List.insertionSort arrivalLE (table.filter fun v => v.status == "Na fila")

/-- The process environment the client module reads (part_000 lines 5-6):
`import.meta.env` values are absent or present strings. -/
structure ViteEnv where
  VITE_SUPABASE_URL : Option String
  VITE_SUPABASE_ANON_KEY : Option String
  deriving Repr, DecidableEq

/-- A constructed remote-store client. -/
structure SupabaseClient where
  url : String
  key : String
  deriving Repr, DecidableEq

/-- Modelled from the spec: the third-party `createClient` constructor the
client module imports is not part of this repository; per the spec, absence of
the base URL or the access key must fail fast at initialization rather than
silently degrading, so construction errors when either value is absent. -/
def createClient (url key : Option String) : Except String SupabaseClient :=
  match url, key with
  | none, _ => Except.error "supabaseUrl is required"
  | _, none => Except.error "supabaseKey is required"
  | some u, some k => Except.ok ⟨u, k⟩

/-- The module-level `supabase` client (part_000 line 8): the two environment
values are passed to `createClient` unchanged, with no defaulting, fallback or
guarding in the repository's own code. -/
def supabase (env : ViteEnv) : Except String SupabaseClient :=
  createClient env.VITE_SUPABASE_URL env.VITE_SUPABASE_ANON_KEY

/-- Running the busy flag along a trace from a starting value: `true` exactly
when every remote call in the trace happens while the flag is set. -/
def remotesWhileBusy : Bool → List Ev → Bool
  | _, [] => true
  | _, Ev.setLoading b :: rest => remotesWhileBusy b rest
  | b, Ev.remote _ :: rest => b && remotesWhileBusy b rest
  | b, _ :: rest => remotesWhileBusy b rest

/-- A concrete vehicle row used to instantiate theorems. -/
def vehA : Vehicle := ⟨1, "AAA1111", "", "", "", "", "", "", "", "Na fila", 10, none⟩

/-- A second concrete vehicle row with a later arrival. -/
def vehB : Vehicle := ⟨2, "BBB2222", "", "", "", "", "", "", "", "Na fila", 20, none⟩

/-- A concrete draft whose tractor plate is non-empty. -/
def sampleForm : Form := ⟨"ABC1234", "", "", "", "", "", "", ""⟩

/-- C1: for every non-empty local queue, `handleCallNext` removes exactly the
head element (index 0) from the local queue, for every outcome of the remote
row update and the remote history insert (optimistic removal, no rollback). -/
theorem advance_removes_head (s : AppState) (now : Nat) (ue he : Option String)
    (h : s.fila ≠ []) :
    (run s (handleCallNext s now ue he)).fila = s.fila.tail := by
  cases hf : s.fila with
  | nil => exact absurd hf h
  | cons a rest =>
    rcases ue with _ | m <;> rcases he with _ | m' <;>
      simp [handleCallNext, hf, run, applyEv]

/-- Witness for C1: advancing the concrete two-element queue with a failing
update leaves exactly the second element. -/
theorem advance_removes_head_witness :
    (run ⟨initialForm, [vehA, vehB], false⟩
        (handleCallNext ⟨initialForm, [vehA, vehB], false⟩ 30 (some "boom") none)).fila =
      [vehB] :=
  advance_removes_head ⟨initialForm, [vehA, vehB], false⟩ 30 (some "boom") none (by decide)

/-- C2: when the head of the queue is `A`, `handleCallNext` issues exactly one
row update targeting `A.id` with status "Chamado" and called timestamp `now`,
and exactly one history insert with vehicle identifier `A.id`, action
"Chamado", the same `now`, and payload `A` as it was before the update. -/
theorem advance_issues_update_and_history (s : AppState) (now : Nat)
    (ue he : Option String) (A : Vehicle) (rest : List Vehicle)
    (h : s.fila = A :: rest) :
    remoteCalls (handleCallNext s now ue he) =
      [RemoteCall.updateFila A.id "Chamado" now,
       RemoteCall.insertHistorico A.id "Chamado" now A] := by
  rcases ue with _ | m <;> rcases he with _ | m' <;>
    simp [handleCallNext, h, remoteCalls]

/-- Witness for C2 at the concrete queue `[vehA, vehB]` with both remote
writes failing. -/
theorem advance_issues_update_and_history_witness :
    remoteCalls (handleCallNext ⟨initialForm, [vehA, vehB], false⟩ 30
        (some "boom") (some "crash")) =
      [RemoteCall.updateFila vehA.id "Chamado" 30,
       RemoteCall.insertHistorico vehA.id "Chamado" 30 vehA] :=
  advance_issues_update_and_history ⟨initialForm, [vehA, vehB], false⟩ 30
    (some "boom") (some "crash") vehA [vehB] rfl

/-- C3: on a non-empty queue both remote writes are attempted for every error
outcome: the list of remote calls does not depend on either error, it holds
exactly one row update and exactly one history insert, and each error, when
present, is logged independently of the other. -/
theorem advance_writes_independent (s : AppState) (now : Nat) (ue he : Option String)
    (h : s.fila ≠ []) :
    remoteCalls (handleCallNext s now ue he) =
      remoteCalls (handleCallNext s now none none) ∧
    (remoteCalls (handleCallNext s now ue he)).countP RemoteCall.isUpdateFila = 1 ∧
    (remoteCalls (handleCallNext s now ue he)).countP RemoteCall.isInsertHistorico = 1 ∧
    (∀ m, ue = some m →
      Ev.logError "Erro ao chamar veículo:" m ∈ handleCallNext s now ue he) ∧
    (∀ m, he = some m →
      Ev.logError "Erro ao registrar histórico:" m ∈ handleCallNext s now ue he) := by
  cases hf : s.fila with
  | nil => exact absurd hf h
  | cons a rest =>
    rcases ue with _ | m <;> rcases he with _ | m' <;>
      simp [handleCallNext, hf, remoteCalls, List.countP_cons, RemoteCall.isUpdateFila,
        RemoteCall.isInsertHistorico]

/-- Witness for C3: with both remote writes failing on the concrete queue, the
remote-call list equals the one of the error-free run, and both errors are
logged. -/
theorem advance_writes_independent_witness :
    remoteCalls (handleCallNext ⟨initialForm, [vehA], false⟩ 30 (some "boom") (some "crash")) =
      remoteCalls (handleCallNext ⟨initialForm, [vehA], false⟩ 30 none none) ∧
    Ev.logError "Erro ao chamar veículo:" "boom" ∈
      handleCallNext ⟨initialForm, [vehA], false⟩ 30 (some "boom") (some "crash") ∧
    Ev.logError "Erro ao registrar histórico:" "crash" ∈
      handleCallNext ⟨initialForm, [vehA], false⟩ 30 (some "boom") (some "crash") :=
  ⟨(advance_writes_independent ⟨initialForm, [vehA], false⟩ 30 (some "boom") (some "crash")
      (by decide)).1,
   (advance_writes_independent ⟨initialForm, [vehA], false⟩ 30 (some "boom") (some "crash")
      (by decide)).2.2.2.1 "boom" rfl,
   (advance_writes_independent ⟨initialForm, [vehA], false⟩ 30 (some "boom") (some "crash")
      (by decide)).2.2.2.2 "crash" rfl⟩

/-- C8: on an empty queue, `handleCallNext` performs no effects at all: its
trace is empty, so no remote call is issued and the whole local state (queue,
draft and busy flag) is unchanged. -/
theorem advance_empty_noop (s : AppState) (now : Nat) (ue he : Option String)
    (h : s.fila = []) :
    handleCallNext s now ue he = [] ∧
    remoteCalls (handleCallNext s now ue he) = [] ∧
    run s (handleCallNext s now ue he) = s := by
  refine ⟨?_, ?_, ?_⟩ <;> simp [handleCallNext, h, remoteCalls, run]

/-- Witness for C8 at the concrete empty-queue state. -/
theorem advance_empty_noop_witness :
    run ⟨sampleForm, [], false⟩ (handleCallNext ⟨sampleForm, [], false⟩ 30 none none) =
      ⟨sampleForm, [], false⟩ :=
  (advance_empty_noop ⟨sampleForm, [], false⟩ 30 none none rfl).2.2

/-- C4: on a successful fetch the local queue is replaced by exactly the
remote rows with status "Na fila" sorted ascending by arrival timestamp (the
query result is sorted, and its members are exactly the "Na fila" rows of the
table); on a failed fetch the error is logged and the local queue keeps its
prior value. -/
theorem load_replaces_queue :
    (∀ (s : AppState) (table : List Vehicle),
      (run s (fetchQueue (some (selectNaFila table)) none)).fila = selectNaFila table ∧
      List.Sorted arrivalLE (selectNaFila table) ∧
      (∀ v, v ∈ selectNaFila table ↔ v ∈ table ∧ v.status = "Na fila")) ∧
    (∀ (s : AppState) (d : Option (List Vehicle)) (m : String),
      (run s (fetchQueue d (some m))).fila = s.fila ∧
      Ev.logError "Erro ao buscar fila:" m ∈ fetchQueue d (some m)) := by
  constructor
  · intro s table
    refine ⟨by simp [fetchQueue, run, applyEv], List.sorted_insertionSort arrivalLE _, ?_⟩
    intro v
    simp [selectNaFila, List.mem_insertionSort, List.mem_filter]
  · intro s d m
    constructor
    · simp [fetchQueue, run, applyEv]
    · simp [fetchQueue]

/-- C5: for a submit of a draft with non-empty tractor plate, a successful
insert (the store returns the one inserted row, which carries status
"Na fila") appends exactly that record to the end of the local queue and
resets the draft to the all-empty form, and the single remote call is the
queue insert with status forced to "Na fila"; a failed insert logs the error
and leaves the draft and the queue untouched. -/
theorem submit_success_appends (s : AppState) (v : Vehicle)
    (_hplaca : s.form.placa_cavalo ≠ "") (_hv : v.status = "Na fila") :
    (run s (handleSubmit s (some [v]) none)).fila = s.fila ++ [v] ∧
    (run s (handleSubmit s (some [v]) none)).form = initialForm ∧
    remoteCalls (handleSubmit s (some [v]) none) = [RemoteCall.insertFila s.form "Na fila"] ∧
    (∀ (d : Option (List Vehicle)) (m : String),
      (run s (handleSubmit s d (some m))).form = s.form ∧
      (run s (handleSubmit s d (some m))).fila = s.fila ∧
      Ev.logError "Erro ao inserir veículo:" m ∈ handleSubmit s d (some m)) := by
  refine ⟨by simp [handleSubmit, run, applyEv], by simp [handleSubmit, run, applyEv],
    by simp [handleSubmit, remoteCalls], ?_⟩
  intro d m
  refine ⟨?_, ?_, ?_⟩ <;> simp [handleSubmit, run, applyEv, jsErrMessage]

/-- Witness for C5: submitting the concrete non-empty draft with the store
returning `vehA` appends `vehA` and resets the draft. -/
theorem submit_success_appends_witness :
    (run ⟨sampleForm, [], false⟩ (handleSubmit ⟨sampleForm, [], false⟩ (some [vehA]) none)).fila =
      [vehA] ∧
    (run ⟨sampleForm, [], false⟩ (handleSubmit ⟨sampleForm, [], false⟩ (some [vehA]) none)).form =
      initialForm :=
  ⟨(submit_success_appends ⟨sampleForm, [], false⟩ vehA (by decide) rfl).1,
   (submit_success_appends ⟨sampleForm, [], false⟩ vehA (by decide) rfl).2.1⟩

/-- C6: a submission whose draft has an empty tractor plate is rejected at the
form-submission boundary before anything runs: the dispatched trace is empty,
so no insert (indeed no remote call) is issued and the local state is
unchanged. -/
theorem submit_empty_placa_rejected (s : AppState) (d : Option (List Vehicle))
    (e : Option String) (h : s.form.placa_cavalo = "") :
    submitFormEvent s d e = [] ∧
    remoteCalls (submitFormEvent s d e) = [] ∧
    run s (submitFormEvent s d e) = s := by
  have hev : submitFormEvent s d e = [] := by
    unfold submitFormEvent
    by_cases hl : s.loading <;> simp [hl, h]
  exact ⟨hev, by simp [hev, remoteCalls], by simp [hev, run]⟩

/-- Witness for C6 at the concrete all-empty draft. -/
theorem submit_empty_placa_rejected_witness :
    submitFormEvent ⟨initialForm, [vehA], false⟩ (some [vehB]) none = [] ∧
    run ⟨initialForm, [vehA], false⟩
        (submitFormEvent ⟨initialForm, [vehA], false⟩ (some [vehB]) none) =
      ⟨initialForm, [vehA], false⟩ :=
  ⟨(submit_empty_placa_rejected ⟨initialForm, [vehA], false⟩ (some [vehB]) none rfl).1,
   (submit_empty_placa_rejected ⟨initialForm, [vehA], false⟩ (some [vehB]) none rfl).2.2⟩

/-- C10: when the insert during submit returns neither an error nor data (the
`!error && data` test fails on null data), the controller treats it as a
failure: it logs the insert-error message with detail "undefined" (the print
of `error?.message` on a null error), appends nothing to the local queue, and
leaves the draft unchanged. -/
theorem submit_null_data_failure (s : AppState) :
    (run s (handleSubmit s none none)).fila = s.fila ∧
    (run s (handleSubmit s none none)).form = s.form ∧
    Ev.logError "Erro ao inserir veículo:" "undefined" ∈ handleSubmit s none none := by
  refine ⟨?_, ?_, ?_⟩ <;> simp [handleSubmit, run, applyEv, jsErrMessage]

/-- C7 counterexample: the controller operations do not themselves guard on
the busy flag. At the concrete state whose `loading` flag is already true, the
submit operation still issues its remote insert and completes successfully
(it appends the returned row), so it is not the case that each operation's
guard checks busy before any remote call is made. -/
theorem busy_guard_counterexample :
    (⟨sampleForm, [], true⟩ : AppState).loading = true ∧
    remoteCalls (handleSubmit ⟨sampleForm, [], true⟩ (some [vehA]) none) =
      [RemoteCall.insertFila sampleForm "Na fila"] ∧
    (run ⟨sampleForm, [], true⟩ (handleSubmit ⟨sampleForm, [], true⟩ (some [vehA]) none)).fila =
      [vehA] := by
  refine ⟨rfl, ?_, ?_⟩ <;> simp [handleSubmit, remoteCalls, run, applyEv]

/-- C7 amended: the busy flag is set before every remote call of every
operation and cleared when the operation completes (so it is true for the
whole in-flight duration and false at rest), and invocation while busy is
prevented at the presentation layer, not inside the controller functions: the
submit and call-next controls are disabled while `loading`, so dispatch
through them in a busy state performs nothing. -/
theorem busy_discipline :
    (∀ (d : Option (List Vehicle)) (e : Option String) (b : Bool),
      remotesWhileBusy b (fetchQueue d e) = true) ∧
    (∀ (s : AppState) (d : Option (List Vehicle)) (e : Option String),
      remotesWhileBusy s.loading (handleSubmit s d e) = true ∧
      (run s (handleSubmit s d e)).loading = false) ∧
    (∀ (s : AppState) (now : Nat) (ue he : Option String),
      remotesWhileBusy s.loading (handleCallNext s now ue he) = true ∧
      (s.fila ≠ [] → (run s (handleCallNext s now ue he)).loading = false)) ∧
    (∀ (s : AppState) (d : Option (List Vehicle)) (e : Option String),
      (run s (fetchQueue d e)).loading = false) ∧
    (∀ (s : AppState) (d : Option (List Vehicle)) (e : Option String),
      s.loading = true → submitFormEvent s d e = []) ∧
    (∀ (s : AppState) (now : Nat) (ue he : Option String),
      s.loading = true → clickCallNext s now ue he = []) := by
  refine ⟨?_, ?_, ?_, ?_, ?_, ?_⟩
  · intro d e b
    rcases e with _ | m <;> simp [fetchQueue, remotesWhileBusy]
  · intro s d e
    constructor
    · rcases e with _ | m <;> rcases d with _ | l <;>
        simp [handleSubmit, remotesWhileBusy]
    · rcases e with _ | m <;> rcases d with _ | l <;>
        simp [handleSubmit, run, applyEv]
  · intro s now ue he
    constructor
    · cases hf : s.fila with
      | nil => simp [handleCallNext, hf, remotesWhileBusy]
      | cons a rest =>
        rcases ue with _ | m <;> rcases he with _ | m' <;>
          simp [handleCallNext, hf, remotesWhileBusy]
    · intro h
      cases hf : s.fila with
      | nil => exact absurd hf h
      | cons a rest =>
        rcases ue with _ | m <;> rcases he with _ | m' <;>
          simp [handleCallNext, hf, run, applyEv]
  · intro s d e
    rcases e with _ | m <;> simp [fetchQueue, run, applyEv]
  · intro s d e h
    simp [submitFormEvent, h]
  · intro s now ue he h
    simp [clickCallNext, h]

/-- Witness for the amended C7: at concrete busy states both dispatches do
nothing, and a concrete call-next run ends with the busy flag cleared. -/
theorem busy_discipline_witness :
    submitFormEvent ⟨sampleForm, [vehA], true⟩ (some [vehB]) none = [] ∧
    clickCallNext ⟨sampleForm, [vehA], true⟩ 30 none none = [] ∧
    (run ⟨sampleForm, [vehA], false⟩
        (handleCallNext ⟨sampleForm, [vehA], false⟩ 30 none none)).loading = false :=
  ⟨busy_discipline.2.2.2.2.1 ⟨sampleForm, [vehA], true⟩ (some [vehB]) none rfl,
   busy_discipline.2.2.2.2.2 ⟨sampleForm, [vehA], true⟩ 30 none none rfl,
   (busy_discipline.2.2.1 ⟨sampleForm, [vehA], false⟩ 30 none none).2 (by decide)⟩

/-- C9: when the base URL or the access key is absent from the process
environment, initialization errors at client construction (with the
corresponding constructor error) rather than proceeding with an unconfigured
client. -/
theorem missing_env_fails_fast (env : ViteEnv)
    (h : env.VITE_SUPABASE_URL = none ∨ env.VITE_SUPABASE_ANON_KEY = none) :
    supabase env = Except.error "supabaseUrl is required" ∨
    supabase env = Except.error "supabaseKey is required" := by
  rcases env with ⟨u, k⟩
  rcases h with h | h
  · subst h
    cases k with
    | none => exact Or.inl rfl
    | some k => exact Or.inl rfl
  · subst h
    cases u with
    | none => exact Or.inl rfl
    | some u => exact Or.inr rfl

/-- Witness for C9 at the concrete environment missing the base URL. -/
theorem missing_env_fails_fast_witness :
    supabase ⟨none, some "anon-key"⟩ = Except.error "supabaseUrl is required" ∨
    supabase ⟨none, some "anon-key"⟩ = Except.error "supabaseKey is required" :=
  missing_env_fails_fast ⟨none, some "anon-key"⟩ (Or.inl rfl)

end FilaVeiculos
